import Mathlib

/-!
Shallow embedding of `main.py` (Beginner Coder API): a FastAPI service with a
static catalog of four programming languages, a search endpoint, a lookup
endpoint, and a `/test` diagnostics endpoint reporting optional database
connectivity.  Strings are modelled as Lean `String`s; the character-level
operations of Python (`str.lower`, `str.strip`, substring `in`) are embedded
as executable functions on `List Char`.
-/

namespace BCoder

/-- Embedding of the pydantic model `Snippet` (`main.py`). -/
structure Snippet where
  title : String
  language : String
  code : String
  explanation : String
deriving DecidableEq, Repr

/-- A resource link; `main.py` uses a plain `dict` with `label` and `url` keys. -/
structure Resource where
  label : String
  url : String
deriving DecidableEq, Repr

/-- Embedding of the pydantic model `Language` (`main.py`). -/
structure Language where
  id : String
  name : String
  description : String
  difficulty : String
  topics : List String
  hello_world : Snippet
  tips : List String
  resources : List Resource
deriving DecidableEq, Repr

/-- The `python` entry of `LANGUAGES` (`main.py`). -/
def pythonLang : Language :=
  { id := "python"
    name := "Python"
    description := "Friendly, readable, and great for beginners. Used for web, data, AI, scripts, and more."
    difficulty := "Easy"
    topics := ["Variables", "Loops", "Functions", "Lists", "Dictionaries"]
    hello_world :=
      { title := "Hello, World!"
        language := "python"
        code := "# hello.py\nprint(\x27Hello, World!\x27)"
        explanation := "Run with: python hello.py" }
    tips :=
      ["Use meaningful names: total_price, user_age",
       "Prefer f-strings for formatting",
       "Read errors from bottom-up: the final line often explains it"]
    resources :=
      [{ label := "Official Docs", url := "https://docs.python.org/3/" },
       { label := "W3Schools", url := "https://www.w3schools.com/python/" }] }

/-- The `c` entry of `LANGUAGES` (`main.py`). -/
def cLang : Language :=
  { id := "c"
    name := "C"
    description := "Low-level power and speed. Great for understanding how computers work."
    difficulty := "Medium"
    topics := ["Compilation", "Pointers", "Arrays", "Structs", "Headers"]
    hello_world :=
      { title := "Hello, World!"
        language := "c"
        code := "// hello.c\n#include <stdio.h>\n\nint main() \x7b\n    printf(\"Hello, World!\\n\");\n    return 0;\n\x7d"
        explanation := "Compile with: gcc hello.c -o hello\nRun: ./hello" }
    tips :=
      ["Always initialize your variables",
       "Check return values of functions like malloc and fopen",
       "Use -Wall -Wextra flags with gcc to catch bugs early"]
    resources :=
      [{ label := "C Reference", url := "https://en.cppreference.com/w/c" },
       { label := "Learn C", url := "https://www.learn-c.org/" }] }

/-- The `cpp` entry of `LANGUAGES` (`main.py`). -/
def cppLang : Language :=
  { id := "cpp"
    name := "C++"
    description := "C with high-level features: OOP, templates, and the STL."
    difficulty := "Medium"
    topics := ["Classes", "Vectors", "References", "STL", "Templates"]
    hello_world :=
      { title := "Hello, World!"
        language := "cpp"
        code := "// hello.cpp\n#include <iostream>\nusing namespace std;\n\nint main() \x7b\n    cout << \"Hello, World!\" << endl;\n    return 0;\n\x7d"
        explanation := "Compile with: g++ hello.cpp -o hello\nRun: ./hello" }
    tips :=
      ["Prefer std::vector over raw arrays",
       "Use references (T&) to avoid unnecessary copies",
       "Learn RAII to manage resources safely"]
    resources :=
      [{ label := "cppreference", url := "https://en.cppreference.com/w/" },
       { label := "Learn C++", url := "https://www.learncpp.com/" }] }

/-- The `html` entry of `LANGUAGES` (`main.py`). -/
def htmlLang : Language :=
  { id := "html"
    name := "HTML & CSS"
    description := "The building blocks of the web: structure (HTML) and style (CSS)."
    difficulty := "Easy"
    topics := ["Tags", "Attributes", "Semantic HTML", "Selectors", "Flexbox", "Grid"]
    hello_world :=
      { title := "A simple page"
        language := "html"
        code := "<!-- index.html -->\n<!doctype html>\n<html lang=\"en\">\n  <head>\n    <meta charset=\"UTF-8\" />\n    <meta name=\"viewport\" content=\"width=device-width, initial-scale=1.0\" />\n    <title>Hello</title>\n  </head>\n  <body>\n    <h1>Hello, World!</h1>\n    <p>Welcome to the web!</p>\n  </body>\n</html>"
        explanation := "Open the file in your browser. Use VS Code Live Server for quick reloads." }
    tips :=
      ["Use semantic tags: header, nav, main, section, footer",
       "Mobile-first: start with small screens, then add @media rules",
       "Use CSS Flexbox/Grid for layout instead of floats"]
    resources :=
      [{ label := "MDN Web Docs", url := "https://developer.mozilla.org/en-US/" },
       { label := "Flexbox Froggy", url := "https://flexboxfroggy.com/" }] }

/-- The static catalog `LANGUAGES` of `main.py`, in declaration order. -/
def LANGUAGES : List Language := [pythonLang, cLang, cppLang, htmlLang]

/-!
Embedding of the Python string primitives used by `list_languages`:
`str.lower`, `str.strip` (no argument: strip surrounding whitespace) and the
substring test `query in s`.  We model the ASCII fragment, which covers the
whole catalog.
-/

/-- The characters stripped by Python `str.strip()` (ASCII fragment):
space, tab, newline, carriage return, vertical tab, form feed. -/
def pyIsSpace (c : Char) : Bool :=
  decide (c.toNat = 32 ∨ c.toNat = 9 ∨ c.toNat = 10 ∨ c.toNat = 13 ∨ c.toNat = 11 ∨ c.toNat = 12)

/-- Python `str.lower()` character by character (ASCII fragment), as in
`Char.toLower`: basic latin upper-case letters map to lower case. -/
def pyLower (s : List Char) : List Char := s.map Char.toLower

/-- Drop the leading run of whitespace. -/
def stripFront (s : List Char) : List Char := s.dropWhile pyIsSpace

/-- Drop the trailing run of whitespace. -/
def stripBack (s : List Char) : List Char := (s.reverse.dropWhile pyIsSpace).reverse

/-- Python `str.strip()` with no argument: remove whitespace from both ends. -/
def pyStrip (s : List Char) : List Char := stripBack (stripFront s)

/-- `hasSub hay needle` is Python `needle in hay`: does `needle` occur as a
contiguous substring of `hay`?  The empty needle occurs in every string. -/
def hasSub : List Char → List Char → Bool
  | [], needle => needle.isEmpty
  | c :: t, needle => needle.isPrefixOf (c :: t) || hasSub t needle

/-- Python `query in s` where both are strings: substring containment. -/
def pyIn (needle hay : List Char) : Bool := hasSub hay needle

/-- The filter condition of `list_languages` (`main.py` line 143):
`query in lang.name.lower() or any(query in t.lower() for t in lang.topics)`. -/
def langMatch (query : List Char) (lang : Language) : Bool :=
  pyIn query (pyLower lang.name.data) || lang.topics.any fun t => pyIn query (pyLower t.data)

/-- Handler of `GET /api/languages` (`main.py`, `list_languages`).  The query
parameter `q : Optional[str]` is `none` when absent; Python `not q` is true
exactly when `q` is `None` or the empty string. -/
def list_languages (q : Option String) : List Language :=
  match q with
  | none => LANGUAGES
  | some s =>
    if s = "" then LANGUAGES
    else
      let query := pyStrip (pyLower s.data)
      LANGUAGES.filter (langMatch query)

/-- An HTTP error response, as raised by `HTTPException(status_code, detail)`. -/
structure HTTPError where
  status_code : Nat
  detail : String
deriving DecidableEq, Repr

/-- The `for` loop of `get_language`: return the first record whose `id`
equals `lang_id`, else raise 404. -/
def findLang : List Language → String → Except HTTPError Language
  | [], _ => .error ⟨404, "Language not found"⟩
  | l :: rest, lang_id => if l.id = lang_id then .ok l else findLang rest lang_id

/-- Handler of `GET /api/languages/\x7blang_id\x7d` (`main.py`, `get_language`). -/
def get_language (lang_id : String) : Except HTTPError Language :=
  findLang LANGUAGES lang_id

/-!
Embedding of the `/test` diagnostics handler.  The optional collaborator
`database` module and its `db` handle are modelled as an explicit state:
the import may fail with `ImportError`, fail with another exception, or
succeed yielding `db` (possibly `None`).  A present handle carries an
optional `name` attribute (the `hasattr` check) and a
`list_collection_names()` call that either returns a list of names or
raises an exception with some message.
-/

/-- State of a present, non-`None` database handle. -/
structure DbHandle where
  name : Option String
  list_collection_names : Except String (List String)

/-- Outcome of `from database import db` inside the try block of the handler. -/
inductive DbImport where
  | importError
  | otherError (msg : String)
  | ok (db : Option DbHandle)

/-- The process environment, restricted to the two variables the handler
reads.  `none` means the variable is absent (`os.getenv` returns `None`). -/
structure Env where
  DATABASE_URL : Option String
  DATABASE_NAME : Option String

/-- Python truthiness of an `Optional[str]`: `None` and `""` are falsy. -/
def truthy : Option String → Bool
  | none => false
  | some v => v ≠ ""

/-- Python string slicing `s[:n]`: the first `n` characters. -/
def pyTake (s : String) (n : Nat) : String := String.mk (s.data.take n)

/-- The JSON object returned by `GET /test`.  `database_url` and
`database_name` start as `None` and are modelled as `Option String`. -/
structure TestResponse where
  backend : String
  database : String
  database_url : Option String
  database_name : Option String
  connection_status : String
  collections : List String
deriving DecidableEq, Repr

/-- Handler of `GET /test` (`main.py`, `test_database`).  Returns the HTTP
status code and the response body.  FastAPI serves the returned dict with
status 200; every exception path inside the handler is caught. -/
def test_database (env : Env) (imp : DbImport) : Nat × TestResponse :=
  let r0 : TestResponse :=
    { backend := "✅ Running"
      database := "❌ Not Available"
      database_url := none
      database_name := none
      connection_status := "Not Connected"
      collections := [] }
  let r1 :=
    match imp with
    | .ok (some db) =>
      let r :=
        { r0 with
          database := "✅ Available"
          database_url := some "✅ Configured"
          database_name := some (match db.name with | some n => n | none => "✅ Connected")
          connection_status := "Connected" }
      match db.list_collection_names with
      | .ok collections =>
        { r with collections := collections.take 10, database := "✅ Connected & Working" }
      | .error e =>
        { r with database := "⚠️  Connected but Error: " ++ pyTake e 50 }
    | .ok none => { r0 with database := "⚠️  Available but not initialized" }
    | .importError =>
      { r0 with database := "❌ Database module not found (run enable-database first)" }
    | .otherError e => { r0 with database := "❌ Error: " ++ pyTake e 50 }
  let r2 :=
    { r1 with
      database_url := some (if truthy env.DATABASE_URL then "✅ Set" else "❌ Not Set")
      database_name := some (if truthy env.DATABASE_NAME then "✅ Set" else "❌ Not Set") }
  (200, r2)

/-!  Helper lemmas about `dropWhile`, lowercasing and stripping. -/

theorem dropWhile_head_false {α : Type} {p : α → Bool} :
    ∀ {l : List α} {c : α} {t : List α}, l.dropWhile p = c :: t → p c = false := by
  intro l
  induction l with
  | nil => intro c t h; cases h
  | cons x xs ih =>
    intro c t h
    by_cases hx : p x
    · rw [List.dropWhile_cons_of_pos hx] at h
      exact ih h
    · rw [List.dropWhile_cons_of_neg hx] at h
      cases h
      exact Bool.of_not_eq_true hx

theorem dropWhile_idem {α : Type} {p : α → Bool} (l : List α) :
    (l.dropWhile p).dropWhile p = l.dropWhile p := by
  cases hd : l.dropWhile p with
  | nil => rfl
  | cons c t => exact List.dropWhile_cons_of_neg (by simp [dropWhile_head_false hd])

theorem stripFront_idem (s : List Char) : stripFront (stripFront s) = stripFront s :=
  dropWhile_idem s

theorem stripBack_idem (s : List Char) : stripBack (stripBack s) = stripBack s := by
  unfold stripBack
  rw [List.reverse_reverse, dropWhile_idem]

theorem stripFront_stripBack {u : List Char} (h : stripFront u = u) :
    stripFront (stripBack u) = stripBack u := by
  cases hd : stripBack u with
  | nil => simp [stripFront, hd]
  | cons c w =>
    have hu : u = c :: (w ++ (u.reverse.takeWhile pyIsSpace).reverse) := by
      have hsplit : u.reverse.takeWhile pyIsSpace ++ u.reverse.dropWhile pyIsSpace = u.reverse :=
        List.takeWhile_append_dropWhile pyIsSpace u.reverse
      have := congrArg List.reverse hsplit
      rw [List.reverse_append, List.reverse_reverse] at this
      have hd' : (u.reverse.dropWhile pyIsSpace).reverse = c :: w := hd
      rw [hd'] at this
      simpa using this.symm
    have hc : pyIsSpace c = false := by
      apply dropWhile_head_false (t := w ++ (u.reverse.takeWhile pyIsSpace).reverse)
      calc u.dropWhile pyIsSpace = u := h
        _ = c :: (w ++ (u.reverse.takeWhile pyIsSpace).reverse) := hu
    show (c :: w).dropWhile pyIsSpace = c :: w
    exact List.dropWhile_cons_of_neg (by simp [hc])

theorem pyStrip_idem (s : List Char) : pyStrip (pyStrip s) = pyStrip s := by
  unfold pyStrip
  rw [stripFront_stripBack (stripFront_idem s), stripBack_idem]

theorem toNat_ofNat_valid {n : Nat} (h : n < 55296) : (Char.ofNat n).toNat = n := by
  rw [Char.ofNat, dif_pos (Or.inl h)]
  rfl

theorem toNat_toLower (c : Char) :
    (Char.toLower c).toNat =
      if 65 ≤ c.toNat ∧ c.toNat ≤ 90 then c.toNat + 32 else c.toNat := by
  rw [Char.toLower]
  by_cases h : 65 ≤ c.toNat ∧ c.toNat ≤ 90
  · rw [if_pos h, if_pos h, toNat_ofNat_valid (by omega)]
  · rw [if_neg h, if_neg h]

theorem pyIsSpace_toLower (c : Char) : pyIsSpace (Char.toLower c) = pyIsSpace c := by
  simp only [pyIsSpace, toNat_toLower, decide_eq_decide]
  by_cases h : 65 ≤ c.toNat ∧ c.toNat ≤ 90
  · rw [if_pos h]; omega
  · rw [if_neg h]

theorem pyIsSpace_comp_toLower : pyIsSpace ∘ Char.toLower = pyIsSpace :=
  funext pyIsSpace_toLower

theorem stripFront_pyLower (s : List Char) :
    stripFront (pyLower s) = pyLower (stripFront s) := by
  unfold stripFront pyLower
  rw [List.dropWhile_map, pyIsSpace_comp_toLower]

theorem stripBack_pyLower (s : List Char) :
    stripBack (pyLower s) = pyLower (stripBack s) := by
  unfold stripBack pyLower
  rw [← List.map_reverse, List.dropWhile_map, pyIsSpace_comp_toLower, List.map_reverse]

theorem pyStrip_pyLower (s : List Char) : pyStrip (pyLower s) = pyLower (pyStrip s) := by
  unfold pyStrip
  rw [stripFront_pyLower, stripBack_pyLower]

theorem string_eq_empty_iff {q : String} : q = "" ↔ q.data = [] := by
  constructor
  · intro h; rw [h]
  · intro h
    apply String.ext
    rw [h]

theorem list_languages_some_ne {s : String} (h : ¬ s = "") :
    list_languages (some s) = LANGUAGES.filter (langMatch (pyStrip (pyLower s.data))) := by
  simp [list_languages, h]

theorem findLang_ok {L : List Language} {lid : String} {l : Language}
    (h : findLang L lid = Except.ok l) : l ∈ L ∧ l.id = lid := by
  induction L with
  | nil => cases h
  | cons x xs ih =>
    by_cases hx : x.id = lid
    · rw [findLang, if_pos hx] at h
      cases h
      exact ⟨List.mem_cons_self _ _, hx⟩
    · rw [findLang, if_neg hx] at h
      rcases ih h with ⟨h1, h2⟩
      exact ⟨List.mem_cons_of_mem x h1, h2⟩

theorem findLang_err {L : List Language} {lid : String}
    (h : ∀ l ∈ L, l.id ≠ lid) : findLang L lid = Except.error ⟨404, "Language not found"⟩ := by
  induction L with
  | nil => rfl
  | cons x xs ih =>
    rw [findLang, if_neg (h x (List.mem_cons_self x xs))]
    exact ih fun l hl => h l (List.mem_cons_of_mem x hl)

theorem findLang_hit {L : List Language} {lid : String}
    (h : ∃ l ∈ L, l.id = lid) : ∃ l, findLang L lid = Except.ok l ∧ l.id = lid := by
  induction L with
  | nil => rcases h with ⟨l, hl, _⟩; cases hl
  | cons x xs ih =>
    by_cases hx : x.id = lid
    · exact ⟨x, by rw [findLang, if_pos hx], hx⟩
    · rcases h with ⟨l, hl, hid⟩
      rcases List.mem_cons.1 hl with rfl | hmem
      · exact absurd hid hx
      · rcases ih ⟨l, hmem, hid⟩ with ⟨l2, h1, h2⟩
        exact ⟨l2, by rw [findLang, if_neg hx]; exact h1, h2⟩

theorem ids_nodup : (LANGUAGES.map Language.id).Nodup := by decide

/-- C2: `GET /api/languages/\x7blang_id\x7d` returns the (unique, hence first)
catalog record whose `id` is exactly, case-sensitively equal to `lang_id`
when one exists, and otherwise fails with HTTP 404 and detail
`Language not found`; in particular the id `nonexistent` yields that 404. -/
theorem C2_get_language (lang_id : String) :
    ((∃ l ∈ LANGUAGES, l.id = lang_id) →
      ∃ l, get_language lang_id = Except.ok l ∧ l.id = lang_id ∧ l ∈ LANGUAGES)
    ∧ (∀ l, get_language lang_id = Except.ok l →
        ∀ l2 ∈ LANGUAGES, l2.id = lang_id → l2 = l)
    ∧ ((∀ l ∈ LANGUAGES, l.id ≠ lang_id) →
      get_language lang_id = Except.error ⟨404, "Language not found"⟩)
    ∧ get_language "nonexistent" = Except.error ⟨404, "Language not found"⟩ := by
  refine ⟨?_, ?_, ?_, rfl⟩
  · intro h
    rcases findLang_hit h with ⟨l, h1, h2⟩
    exact ⟨l, h1, h2, (findLang_ok h1).1⟩
  · intro l hok l2 hmem hid
    rcases findLang_ok hok with ⟨hmem', hid'⟩
    exact List.inj_on_of_nodup_map ids_nodup hmem hmem' (by rw [hid, hid'])
  · exact findLang_err

/-- Witness for C2 at the concrete ids `python` and `nonexistent`. -/
theorem C2_witness :
    (∃ l, get_language "python" = Except.ok l ∧ l.id = "python" ∧ l ∈ LANGUAGES)
    ∧ get_language "nonexistent" = Except.error ⟨404, "Language not found"⟩ :=
  ⟨(C2_get_language "python").1 ⟨pythonLang, by simp [LANGUAGES], rfl⟩,
   (C2_get_language "nonexistent").2.2.1 (by decide)⟩

/-- C5: an absent query parameter and an empty query string both return the
full catalog in declaration order. -/
theorem C5_empty_query :
    list_languages (some "") = list_languages none ∧ list_languages none = LANGUAGES :=
  ⟨rfl, rfl⟩

/-- C6: the full listing has exactly 4 records in the fixed order
python, c, cpp, html, and for each seeded id `getById` returns a record
whose `id` equals the requested id. -/
theorem C6_catalog_shape :
    (list_languages none).length = 4
    ∧ (list_languages none).map Language.id = ["python", "c", "cpp", "html"]
    ∧ (get_language "python" = Except.ok pythonLang ∧ pythonLang.id = "python")
    ∧ (get_language "c" = Except.ok cLang ∧ cLang.id = "c")
    ∧ (get_language "cpp" = Except.ok cppLang ∧ cppLang.id = "cpp")
    ∧ (get_language "html" = Except.ok htmlLang ∧ htmlLang.id = "html") :=
  ⟨rfl, rfl, ⟨rfl, rfl⟩, ⟨rfl, rfl⟩, ⟨rfl, rfl⟩, ⟨rfl, rfl⟩⟩

/-- C7: searching `PY` returns exactly the python entry (case-insensitive
match against its name) and searching `loops` returns exactly the python
entry (case-insensitive match against its topic `Loops`). -/
theorem C7_sample_searches :
    list_languages (some "PY") = [pythonLang]
    ∧ list_languages (some "loops") = [pythonLang]
    ∧ pythonLang.id = "python" :=
  ⟨by decide, by decide, rfl⟩

/-- C9: the four catalog ids are pairwise distinct, so at most one record
matches any id and first-match lookup is unambiguous; the catalog is a
constant, never mutated. -/
theorem C9_unique_ids :
    (LANGUAGES.map Language.id).Nodup
    ∧ ∀ i : String, (LANGUAGES.countP fun l => l.id == i) ≤ 1 := by
  refine ⟨ids_nodup, fun i => ?_⟩
  have h1 : (LANGUAGES.countP fun l => l.id == i) = (LANGUAGES.map Language.id).count i := by
    rw [List.count, List.countP_map]
    rfl
  rw [h1]
  exact List.nodup_iff_count_le_one.1 ids_nodup i

/-- C1 is false as stated: the handler renders the flags from Python
truthiness of `os.getenv`, so an environment with `DATABASE_URL` present but
equal to the empty string produces a different `database_url` field than an
environment with `DATABASE_URL` present and non-empty, although both agree
on presence; moreover when the variable happens to hold the literal string
`✅ Set`, the field equals the literal value of the variable. -/
theorem C1_counterexample :
    (test_database ⟨some "", none⟩ DbImport.importError).2.database_url
      ≠ (test_database ⟨some "mongodb://localhost:27017", none⟩ DbImport.importError).2.database_url
    ∧ (test_database ⟨some "✅ Set", none⟩ DbImport.importError).2.database_url
        = some (Env.DATABASE_URL ⟨some "✅ Set", none⟩).get! :=
  ⟨by decide, rfl⟩

/-- C1 (amended): the `database_url` and `database_name` fields of the
`GET /test` response depend only on the truthiness (set to a non-empty
string) of `DATABASE_URL` and `DATABASE_NAME`: any two runs whose
environments agree on the truthiness of the two variables (whatever the
database collaborator does) produce identical fields, and both fields are
always drawn from the two constant strings `✅ Set` / `❌ Not Set`, never
computed from the values of the variables or from the database handle. -/
theorem C1_presence_flags (e1 e2 : Env) (i1 i2 : DbImport)
    (hu : truthy e1.DATABASE_URL = truthy e2.DATABASE_URL)
    (hn : truthy e1.DATABASE_NAME = truthy e2.DATABASE_NAME) :
    (test_database e1 i1).2.database_url = (test_database e2 i2).2.database_url
    ∧ (test_database e1 i1).2.database_name = (test_database e2 i2).2.database_name
    ∧ ((test_database e1 i1).2.database_url = some "✅ Set"
        ∨ (test_database e1 i1).2.database_url = some "❌ Not Set")
    ∧ ((test_database e1 i1).2.database_name = some "✅ Set"
        ∨ (test_database e1 i1).2.database_name = some "❌ Not Set") := by
  have hurl : ∀ (e : Env) (i : DbImport),
      (test_database e i).2.database_url
        = some (if truthy e.DATABASE_URL then "✅ Set" else "❌ Not Set") := fun _ _ => rfl
  have hname : ∀ (e : Env) (i : DbImport),
      (test_database e i).2.database_name
        = some (if truthy e.DATABASE_NAME then "✅ Set" else "❌ Not Set") := fun _ _ => rfl
  refine ⟨?_, ?_, ?_, ?_⟩
  · rw [hurl, hurl, hu]
  · rw [hname, hname, hn]
  · rw [hurl]
    cases truthy e1.DATABASE_URL
    · exact Or.inr rfl
    · exact Or.inl rfl
  · rw [hname]
    cases truthy e1.DATABASE_NAME
    · exact Or.inr rfl
    · exact Or.inl rfl

/-- Witness for the amended C1 at two concrete environments agreeing on
truthiness of both variables but with different literal values. -/
theorem C1_witness :
    truthy (Env.mk (some "mongodb://a") none).DATABASE_URL
        = truthy (Env.mk (some "mongodb://b") (some "")).DATABASE_URL
    ∧ truthy (Env.mk (some "mongodb://a") none).DATABASE_NAME
        = truthy (Env.mk (some "mongodb://b") (some "")).DATABASE_NAME
    ∧ ((test_database (Env.mk (some "mongodb://a") none) DbImport.importError).2.database_url
          = (test_database (Env.mk (some "mongodb://b") (some "")) (DbImport.ok none)).2.database_url
        ∧ (test_database (Env.mk (some "mongodb://a") none) DbImport.importError).2.database_name
          = (test_database (Env.mk (some "mongodb://b") (some "")) (DbImport.ok none)).2.database_name
        ∧ ((test_database (Env.mk (some "mongodb://a") none) DbImport.importError).2.database_url = some "✅ Set"
            ∨ (test_database (Env.mk (some "mongodb://a") none) DbImport.importError).2.database_url = some "❌ Not Set")
        ∧ ((test_database (Env.mk (some "mongodb://a") none) DbImport.importError).2.database_name = some "✅ Set"
            ∨ (test_database (Env.mk (some "mongodb://a") none) DbImport.importError).2.database_name = some "❌ Not Set")) :=
  ⟨by decide, by decide,
   C1_presence_flags (Env.mk (some "mongodb://a") none) (Env.mk (some "mongodb://b") (some ""))
     DbImport.importError (DbImport.ok none) (by decide) (by decide)⟩

/-- C3: for every environment and every state of the optional database
collaborator, `GET /test` returns HTTP 200 and renders each failure mode as
its descriptive status string in the `database` field. -/
theorem C3_test_database_total (env : Env) (imp : DbImport) :
    (test_database env imp).1 = 200
    ∧ (match imp with
       | DbImport.importError =>
           (test_database env imp).2.database
             = "❌ Database module not found (run enable-database first)"
       | DbImport.otherError e =>
           (test_database env imp).2.database = "❌ Error: " ++ pyTake e 50
       | DbImport.ok none =>
           (test_database env imp).2.database = "⚠️  Available but not initialized"
       | DbImport.ok (some db) =>
           match db.list_collection_names with
           | Except.ok _ =>
               (test_database env imp).2.database = "✅ Connected & Working"
           | Except.error e =>
               (test_database env imp).2.database
                 = "⚠️  Connected but Error: " ++ pyTake e 50) := by
  refine ⟨rfl, ?_⟩
  rcases imp with _ | e | db
  · rfl
  · rfl
  · rcases db with _ | ⟨nm, lcn⟩
    · rfl
    · rcases lcn with e | cols <;> rfl

/-- C8: the `collections` field of the `GET /test` response always holds at
most 10 entries (the enumeration truncated to its first 10 names, and empty
on every failure path), and on an enumeration failure the error message
embedded in the reported status string is truncated to at most 50
characters. -/
theorem pyTake_length_le (s : String) (n : Nat) : (pyTake s n).length ≤ n := by
  show (s.data.take n).length ≤ n
  rw [List.length_take]
  exact Nat.min_le_left _ _

theorem C8_truncation (env : Env) (imp : DbImport) :
    (test_database env imp).2.collections.length ≤ 10
    ∧ (∀ db cols, imp = DbImport.ok (some db) →
        db.list_collection_names = Except.ok cols →
        (test_database env imp).2.collections = cols.take 10)
    ∧ (∀ db e, imp = DbImport.ok (some db) →
        db.list_collection_names = Except.error e →
        (test_database env imp).2.database = "⚠️  Connected but Error: " ++ pyTake e 50
        ∧ (pyTake e 50).length ≤ 50) := by
  refine ⟨?_, ?_, ?_⟩
  · rcases imp with _ | e | db
    · show ([] : List String).length ≤ 10
      decide
    · show ([] : List String).length ≤ 10
      decide
    · rcases db with _ | ⟨nm, lcn⟩
      · show ([] : List String).length ≤ 10
        decide
      · rcases lcn with e | cols
        · show ([] : List String).length ≤ 10
          decide
        · show (cols.take 10).length ≤ 10
          rw [List.length_take]
          exact Nat.min_le_left _ _
  · rintro db cols rfl hc
    rcases db with ⟨nm, lcn⟩
    have h2 : lcn = Except.ok cols := hc
    subst h2
    rfl
  · rintro db e rfl hc
    rcases db with ⟨nm, lcn⟩
    have h2 : lcn = Except.error e := hc
    subst h2
    exact ⟨rfl, pyTake_length_le e 50⟩

/-- Witness for C8 at a concrete database handle: a successful enumeration
of two collections and a failing enumeration with message `boom`. -/
theorem C8_witness :
    (test_database ⟨none, none⟩ (DbImport.ok (some ⟨none, Except.ok ["users", "posts"]⟩))).2.collections
      = (["users", "posts"] : List String).take 10
    ∧ (test_database ⟨none, none⟩ (DbImport.ok (some ⟨none, Except.error "boom"⟩))).2.database
      = "⚠️  Connected but Error: " ++ pyTake "boom" 50 :=
  ⟨(C8_truncation ⟨none, none⟩ _).2.1 ⟨none, Except.ok ["users", "posts"]⟩ ["users", "posts"] rfl rfl,
   ((C8_truncation ⟨none, none⟩ _).2.2 ⟨none, Except.error "boom"⟩ "boom" rfl rfl).1⟩

/-- The matching predicate exactly as C4 words it: the lowercased query
(without stripping) occurs in the lowercased name or in the lowercase of
some topic. -/
def claimMatch (q : String) (lang : Language) : Bool :=
  pyIn (pyLower q.data) (pyLower lang.name.data)
  || lang.topics.any fun t => pyIn (pyLower q.data) (pyLower t.data)

/-- C4 is false as stated: the code filters with the lowercased AND
stripped query (`q.lower().strip()`), not the lowercased query.  At the
non-empty query `" py"` the code returns the python record, while no
catalog record has the lowercased query `" py"` as a substring of its
lowercased name or topics. -/
theorem C4_counterexample :
    list_languages (some " py") = [pythonLang]
    ∧ LANGUAGES.filter (claimMatch " py") = [] :=
  ⟨by decide, by decide⟩

/-- C4 (amended): for every non-empty query string q, search returns
exactly those catalog records for which the lowercased and
whitespace-stripped q occurs as a substring of the lowercased `name` or of
the lowercase of at least one element of `topics`, in the original
declaration order of the catalog (a filter of the nodup catalog: no ranking and
no duplicates). -/
theorem C4_search_is_filter (q : String) (h : q ≠ "") :
    list_languages (some q)
      = LANGUAGES.filter (fun lang =>
          pyIn (pyStrip (pyLower q.data)) (pyLower lang.name.data)
          || lang.topics.any fun t => pyIn (pyStrip (pyLower q.data)) (pyLower t.data))
    ∧ (list_languages (some q)).Nodup := by
  have hfilter : list_languages (some q)
      = LANGUAGES.filter (langMatch (pyStrip (pyLower q.data))) := list_languages_some_ne h
  refine ⟨hfilter, ?_⟩
  rw [hfilter]
  exact List.Nodup.filter _ (by decide)

/-- Witness for the amended C4 at the concrete query `PY`. -/
theorem C4_witness :
    ("PY" : String) ≠ ""
    ∧ (list_languages (some "PY")
        = LANGUAGES.filter (fun lang =>
            pyIn (pyStrip (pyLower ("PY" : String).data)) (pyLower lang.name.data)
            || lang.topics.any fun t => pyIn (pyStrip (pyLower ("PY" : String).data)) (pyLower t.data))
      ∧ (list_languages (some "PY")).Nodup) :=
  ⟨by decide, C4_search_is_filter "PY" (by decide)⟩

set_option maxRecDepth 8192 in
/-- C10: surrounding whitespace in the query is ignored — searching any
query equals searching the stripped query — and any non-empty all-whitespace
query returns the full catalog, because the stripped query is empty and the
empty string occurs in every name. -/
theorem C10_strip_invariance (q : String) :
    list_languages (some q) = list_languages (some (String.mk (pyStrip q.data)))
    ∧ (q ≠ "" → (∀ c ∈ q.data, pyIsSpace c) → list_languages (some q) = LANGUAGES) := by
  have hws : ∀ s : String, ¬ s = "" → pyStrip s.data = [] →
      list_languages (some s) = LANGUAGES := by
    intro s hne h0
    rw [list_languages_some_ne hne]
    have h1 : pyStrip (pyLower s.data) = [] := by
      rw [pyStrip_pyLower, h0]
      rfl
    rw [h1]
    decide
  constructor
  · by_cases h : q = ""
    · subst h
      rfl
    · by_cases h2 : pyStrip q.data = []
      · rw [hws q h h2, h2]
        rfl
      · have h2' : ¬ String.mk (pyStrip q.data) = "" := by
          rw [string_eq_empty_iff]
          exact h2
        rw [list_languages_some_ne h, list_languages_some_ne h2']
        have hq : pyStrip (pyLower (String.mk (pyStrip q.data)).data)
            = pyStrip (pyLower q.data) := by
          show pyStrip (pyLower (pyStrip q.data)) = pyStrip (pyLower q.data)
          rw [← pyStrip_pyLower, pyStrip_idem, pyStrip_pyLower]
        rw [hq]
  · intro hne hall
    apply hws q hne
    apply List.eq_nil_of_length_eq_zero
    have h1 : stripFront q.data = [] := by
      unfold stripFront
      rw [List.dropWhile_eq_nil_iff]
      exact hall
    show (stripBack (stripFront q.data)).length = 0
    rw [h1]
    rfl

/-- Witness for C10 part two at the concrete all-whitespace query of two
spaces (and, through the theorem, its first part at the same input). -/
theorem C10_witness :
    (list_languages (some "  ") = list_languages (some (String.mk (pyStrip ("  " : String).data)))
      ∧ (("  " : String) ≠ "" → (∀ c ∈ ("  " : String).data, pyIsSpace c) →
          list_languages (some "  ") = LANGUAGES))
    ∧ list_languages (some "  ") = LANGUAGES :=
  ⟨C10_strip_invariance "  ",
   (C10_strip_invariance "  ").2 (by decide) (by decide)⟩

end BCoder
